import Mathlib

/-!
Verification of the task-monitoring subsystem of the bili2text web client
(`src/webserver/static/js/taskMonitor.js`, duplicated inline as
`App.monitorTask` in `src/webserver/static/js/app.js`).

The monitor polls `/api/task/{taskId}`, smooths the displayed progress bar
with a frame-callback animation, adapts its polling interval by the number
of completed checks, and retries transport failures against a shared
counter.  Numeric values are modelled in `ℚ` (the algorithms use only
comparisons, one multiplication by 1/10 and clamping); JS timers are
modelled by recording which continuation each handler invocation schedules
and with which millisecond delay.
-/

namespace Bili2Text

/-- Wire-level result of one successful HTTP poll, the JSON fields of the
`/api/task/{taskId}` response that `checkStatus` reads.  JS-falsy absence
(`data.progress || 0`, `data.stage_name || currentStageName`,
`data.error || fallback`) is modelled with `Option` and `getD`. -/
structure StatusResponse where
  success : Bool
  status : String
  progress : Option ℚ
  stage_name : Option String
  elapsed_time : ℚ
  error : Option String
  deriving DecidableEq, Repr

/-- Mutable closure state of one `monitorTask` invocation:
`lastProgress`, `checkCount`, `checkInterval`, `currentStageName`, and the
progress bar width (`progressBar.style.width`, in percent; `showTaskModal`
initialises it to `5%`). -/
structure MState where
  lastProgress : ℚ
  checkCount : ℕ
  checkInterval : ℕ
  currentStageName : String
  barWidth : ℚ
  deriving DecidableEq, Repr

/-- Closure state at `monitorTask` entry: `lastProgress = 0`,
`checkCount = 0`, `checkInterval = 1000`, stage name `正在处理`, and the bar
at the 5% floor set by `showTaskModal`. -/
def initState : MState :=
  { lastProgress := 0
    checkCount := 0
    checkInterval := 1000
    currentStageName := "正在处理"
    barWidth := 5 }

/-- Terminal value surfaced to the user/caller: `completed` triggers the
success notification and navigation to `transcription/{videoId}`;
`failed` and `errored` carry the notification message shown. -/
inductive Outcome where
  | completed (videoId : String)
  | failed (reason : String)
  | errored (reason : String)
  deriving DecidableEq, Repr

/-- `Math.abs`, written out so that it evaluates by kernel reduction. -/
def mabs (x : ℚ) : ℚ :=
  if x < 0 then -x else x

/-- `targetWidth = Math.max(5, Math.min(100, targetProgress * 100))` from
`animateProgress`, written out so that it evaluates by kernel reduction. -/
def clampWidth (p : ℚ) : ℚ :=
  let m := if p * 100 < 100 then p * 100 else 100
  if m < 5 then 5 else m

/-- One synchronous invocation of `animateProgress(targetProgress)` acting
on the current bar width: returns the width written to
`progressBar.style.width` and whether a further animation frame was
scheduled (`requestAnimationFrame`).  Mirrors taskMonitor.js lines 22-45:
if `|targetWidth - currentWidth| < 0.5` snap to the target and stop;
otherwise write `currentWidth + (targetWidth - currentWidth) * 0.1` and
re-schedule only when the written width is still more than 0.5 away from
the target. -/
def animateStep (currentWidth : ℚ) (targetProgress : ℚ) : ℚ × Bool :=
  let targetWidth := clampWidth targetProgress
  if mabs (targetWidth - currentWidth) < 1/2 then
    (targetWidth, false)
  else
    let newWidth := currentWidth + (targetWidth - currentWidth) * (1/10)
    (newWidth, decide (1/2 < mabs (newWidth - targetWidth)))

/-- The guarded update of `lastProgress` in the `processing` branch
(taskMonitor.js line 66): the new fractional progress is stored (and a new
animation started toward it) only when `progress > lastProgress` or
`progress >= 0.99`. -/
def setTargetStep (last p : ℚ) : ℚ :=
  if p > last ∨ p ≥ 99/100 then p else last

/-- Result of one invocation of the `checkStatus` handler: the updated
closure state, whether `setTimeout(checkStatus, _)` was called (and with
what delay), and which terminal outcome (if any) was put on a timer to be
surfaced (with its delay in ms; 0 when surfaced synchronously). -/
structure StepResult where
  state : MState
  schedulesNext : Bool
  nextDelay : Option ℕ
  outcome : Option Outcome
  outcomeDelay : Option ℕ
  deriving DecidableEq, Repr

/-- One invocation of `checkStatus` (taskMonitor.js lines 52-140).
`none` is a transport failure (the `fetch`/`await` threw, handled by the
`catch` branch); `some d` is a parsed JSON response.  Branches:
`success && status == "processing"` updates stage name, conditionally
re-animates and stores progress, increments `checkCount`, adapts
`checkInterval`, and re-arms the poll; `completed` animates to 100% and
schedules the success outcome after 1500 ms; `failed` schedules the
failure outcome after 1500 ms; `success:false` schedules the error
notification after 1000 ms; the catch branch retries after 3000 ms while
`checkCount < 5` (incrementing it) and otherwise surfaces the connection
error immediately. -/
def checkStatusStep (videoId : String) (s : MState) (r : Option StatusResponse) :
    StepResult :=
  match r with
  | none =>
    if s.checkCount < 5 then
      { state := { s with checkCount := s.checkCount + 1 }
        schedulesNext := true
        nextDelay := some 3000
        outcome := none
        outcomeDelay := none }
    else
      { state := s
        schedulesNext := false
        nextDelay := none
        outcome := some (.errored "无法连接到服务器，请检查网络连接")
        outcomeDelay := some 0 }
  | some d =>
    if d.success then
      if d.status = "processing" then
        let progress := d.progress.getD 0
        let stageName := d.stage_name.getD s.currentStageName
        let lastProgress' := setTargetStep s.lastProgress progress
        let barWidth' :=
          if progress > s.lastProgress ∨ progress ≥ 99/100 then
            (animateStep s.barWidth progress).1
          else s.barWidth
        let count' := s.checkCount + 1
        let interval1 :=
          if count' > 10 ∧ s.checkInterval < 3000 then 2000 else s.checkInterval
        let interval2 :=
          if count' > 30 ∧ interval1 < 5000 then 3000 else interval1
        { state :=
            { lastProgress := lastProgress'
              checkCount := count'
              checkInterval := interval2
              currentStageName := stageName
              barWidth := barWidth' }
          schedulesNext := true
          nextDelay := some interval2
          outcome := none
          outcomeDelay := none }
      else if d.status = "completed" then
        { state := { s with barWidth := (animateStep s.barWidth 1).1 }
          schedulesNext := false
          nextDelay := none
          outcome := some (.completed videoId)
          outcomeDelay := some 1500 }
      else if d.status = "failed" then
        { state := s
          schedulesNext := false
          nextDelay := none
          outcome := some (.failed "视频转录失败，请稍后重试")
          outcomeDelay := some 1500 }
      else
        { state := s
          schedulesNext := false
          nextDelay := none
          outcome := none
          outcomeDelay := none }
    else
      { state := s
        schedulesNext := false
        nextDelay := none
        outcome := some (.errored (d.error.getD "无法获取任务状态"))
        outcomeDelay := some 1000 }

/-- Outcomes delivered along the monitor's own poll chain: `checkStatus`
fires once immediately at `monitorTask` entry and thereafter only when the
previous invocation called `setTimeout(checkStatus, _)`; each element of
the list is what one poll produced. -/
def runMonitor (videoId : String) : MState → List (Option StatusResponse) → List Outcome
  | _, [] => []
  | s, r :: rs =>
    let st := checkStatusStep videoId s r
    st.outcome.toList ++ (if st.schedulesNext then runMonitor videoId st.state rs else [])

/-- Closure states after each handler invocation of the monitor's poll
chain (stopping, like the chain itself, once no next poll is armed). -/
def statesTrace (videoId : String) : MState → List (Option StatusResponse) → List MState
  | _, [] => []
  | s, r :: rs =>
    let st := checkStatusStep videoId s r
    st.state :: (if st.schedulesNext then statesTrace videoId st.state rs else [])

/-- Closure state after `n` consecutive transport failures from a fresh
monitor. -/
def iterFail (videoId : String) : ℕ → MState
  | 0 => initState
  | n + 1 => (checkStatusStep videoId (iterFail videoId n) none).state

/-- The polling-interval schedule the code realises, as a function of the
post-increment `checkCount`. -/
def intervalTable (n : ℕ) : ℕ :=
  if n ≤ 10 then 1000 else if n ≤ 30 then 2000 else 3000

/-- A canonical in-flight `processing` report used as test input. -/
def procReport (p : ℚ) : StatusResponse :=
  { success := true
    status := "processing"
    progress := some p
    stage_name := some "转录中"
    elapsed_time := 30
    error := none }

/-- A canonical `completed` report used as test input. -/
def completedReport : StatusResponse :=
  { success := true
    status := "completed"
    progress := none
    stage_name := none
    elapsed_time := 120
    error := none }

/-- A well-formed response with an unrecognised `status` value. -/
def queuedReport : StatusResponse :=
  { success := true
    status := "queued"
    progress := none
    stage_name := none
    elapsed_time := 0
    error := none }

/-- A well-formed `success:false` response carrying an error message. -/
def quotaReport : StatusResponse :=
  { success := false
    status := ""
    progress := none
    stage_name := none
    elapsed_time := 0
    error := some "quota exceeded" }

/-- The connection-failure message surfaced when the transport retry
budget is exhausted. -/
def connFailMsg : String := "无法连接到服务器，请检查网络连接"

/-- The bar widths produced by running `animateStep` on a list of
reported targets, starting at the 5% floor set by `showTaskModal`. -/
def foldWidth (ps : List ℚ) : ℚ :=
  ps.foldl (fun w p => (animateStep w p).1) 5

/-- Shape of the catch-branch result while `checkCount < 5`: increment the
counter and re-arm after 3000 ms. -/
def failRetryResult (s : MState) : StepResult :=
  { state := { s with checkCount := s.checkCount + 1 }
    schedulesNext := true
    nextDelay := some 3000
    outcome := none
    outcomeDelay := none }

/-- Shape of the catch-branch result once `checkCount < 5` fails: surface
the connection error synchronously and stop. -/
def failExhaustResult (s : MState) : StepResult :=
  { state := s
    schedulesNext := false
    nextDelay := none
    outcome := some (.errored connFailMsg)
    outcomeDelay := some 0 }

/-- Shape of the `status:"completed"` result: animate to 100% and surface
the completion after the 1500 ms grace delay. -/
def completedResult (v : String) (s : MState) : StepResult :=
  { state := { s with barWidth := (animateStep s.barWidth 1).1 }
    schedulesNext := false
    nextDelay := none
    outcome := some (.completed v)
    outcomeDelay := some 1500 }

/-- Shape of the `status:"failed"` result: surface the generic failure
after the 1500 ms grace delay. -/
def failedResult (s : MState) : StepResult :=
  { state := s
    schedulesNext := false
    nextDelay := none
    outcome := some (.failed "视频转录失败，请稍后重试")
    outcomeDelay := some 1500 }

/-- Shape of the result for a successful response with an unrecognised
status: nothing happens at all. -/
def otherResult (s : MState) : StepResult :=
  { state := s
    schedulesNext := false
    nextDelay := none
    outcome := none
    outcomeDelay := none }

/-- Shape of the `success:false` result: surface the response error (or
the generic fallback) after 1000 ms. -/
def appErrResult (s : MState) (d : StatusResponse) : StepResult :=
  { state := s
    schedulesNext := false
    nextDelay := none
    outcome := some (.errored (d.error.getD "无法获取任务状态"))
    outcomeDelay := some 1000 }

section Lemmas

lemma checkStatusStep_proc (v : String) (s : MState) (r : StatusResponse)
    (h1 : r.success = true) (h2 : r.status = "processing") :
    checkStatusStep v s (some r) =
      { state :=
          { lastProgress := setTargetStep s.lastProgress (r.progress.getD 0)
            checkCount := s.checkCount + 1
            checkInterval :=
              if s.checkCount + 1 > 30 ∧
                  (if s.checkCount + 1 > 10 ∧ s.checkInterval < 3000 then 2000
                   else s.checkInterval) < 5000
              then 3000
              else
                if s.checkCount + 1 > 10 ∧ s.checkInterval < 3000 then 2000
                else s.checkInterval
            currentStageName := r.stage_name.getD s.currentStageName
            barWidth :=
              if r.progress.getD 0 > s.lastProgress ∨ (99 : ℚ)/100 ≤ r.progress.getD 0
              then (animateStep s.barWidth (r.progress.getD 0)).1
              else s.barWidth }
        schedulesNext := true
        nextDelay :=
          some
            (if s.checkCount + 1 > 30 ∧
                (if s.checkCount + 1 > 10 ∧ s.checkInterval < 3000 then 2000
                 else s.checkInterval) < 5000
             then 3000
             else
               if s.checkCount + 1 > 10 ∧ s.checkInterval < 3000 then 2000
               else s.checkInterval)
        outcome := none
        outcomeDelay := none } := by
  simp only [checkStatusStep, h1, h2, if_true, setTargetStep, ge_iff_le]

lemma intervalTable_succ (c : ℕ) :
    (if c + 1 > 30 ∧
        (if c + 1 > 10 ∧ intervalTable c < 3000 then 2000 else intervalTable c) < 5000
      then 3000
      else
        if c + 1 > 10 ∧ intervalTable c < 3000 then 2000 else intervalTable c)
      = intervalTable (c + 1) := by
  unfold intervalTable
  split_ifs <;> omega

lemma intervalTable_mono {n m : ℕ} (h : n ≤ m) : intervalTable n ≤ intervalTable m := by
  unfold intervalTable
  split_ifs <;> omega

lemma statesTrace_proc (v : String) :
    ∀ (rs : List StatusResponse) (s : MState),
      (∀ r ∈ rs, r.success = true ∧ r.status = "processing") →
      s.checkInterval = intervalTable s.checkCount →
      (statesTrace v s (rs.map some)).map (fun t => (t.checkCount, t.checkInterval))
        = (List.range rs.length).map
            (fun k => (s.checkCount + k + 1, intervalTable (s.checkCount + k + 1)))
  | [], s, _, _ => by simp [statesTrace]
  | r :: rs, s, hall, hs => by
    have hr := hall r (List.mem_cons_self r rs)
    have hstep := checkStatusStep_proc v s r hr.1 hr.2
    have htail := statesTrace_proc v rs
      ((checkStatusStep v s (some r)).state)
      (fun x hx => hall x (List.mem_cons_of_mem r hx))
      (by rw [hstep]; simpa using (hs ▸ intervalTable_succ s.checkCount))
    have hcount : (checkStatusStep v s (some r)).state.checkCount = s.checkCount + 1 := by
      rw [hstep]
    have hint : (checkStatusStep v s (some r)).state.checkInterval
        = intervalTable (s.checkCount + 1) := by
      rw [hstep]; simpa using (hs ▸ intervalTable_succ s.checkCount)
    have hsched : (checkStatusStep v s (some r)).schedulesNext = true := by
      rw [hstep]
    simp only [List.map_cons, statesTrace, hsched, if_true, List.map_cons,
      List.length_cons, List.range_succ_eq_map, List.map_map, List.cons.injEq]
    refine ⟨by simp [hcount, hint], ?_⟩
    rw [htail]
    apply List.map_congr_left
    intro k _
    simp only [Function.comp_apply, hcount]
    have hk : s.checkCount + 1 + k + 1 = s.checkCount + k.succ + 1 := by omega
    rw [hk]

lemma clampWidth_le (p : ℚ) : 5 ≤ clampWidth p ∧ clampWidth p ≤ 100 := by
  simp only [clampWidth]
  split_ifs <;> constructor <;> linarith

lemma clampWidth_mono {p q : ℚ} (h : p ≤ q) : clampWidth p ≤ clampWidth q := by
  simp only [clampWidth]
  have : p * 100 ≤ q * 100 := by linarith
  split_ifs <;> linarith

lemma mabs_eq_abs (x : ℚ) : mabs x = |x| := by
  unfold mabs
  rcases le_or_lt 0 x with h | h
  · rw [if_neg (not_lt.mpr h), abs_of_nonneg h]
  · rw [if_pos h, abs_of_neg h]

lemma animateStep_bounds {c : ℚ} (p : ℚ) (h5 : 5 ≤ c) (h100 : c ≤ 100) :
    5 ≤ (animateStep c p).1 ∧ (animateStep c p).1 ≤ 100 := by
  obtain ⟨ht5, ht100⟩ := clampWidth_le p
  simp only [animateStep]
  split_ifs with h
  · exact ⟨ht5, ht100⟩
  · constructor <;> · simp only; linarith

lemma foldWidth_bounds (ps : List ℚ) : 5 ≤ foldWidth ps ∧ foldWidth ps ≤ 100 := by
  have haux : ∀ (qs : List ℚ) (w : ℚ), 5 ≤ w → w ≤ 100 →
      5 ≤ qs.foldl (fun a p => (animateStep a p).1) w
      ∧ qs.foldl (fun a p => (animateStep a p).1) w ≤ 100 := by
    intro qs
    induction qs with
    | nil => intro w h1 h2; exact ⟨h1, h2⟩
    | cons q qs ih =>
      intro w h1 h2
      obtain ⟨g1, g2⟩ := animateStep_bounds q h1 h2
      exact ih _ g1 g2
  exact haux ps 5 le_rfl (by norm_num)

lemma checkStatusStep_none_lt (v : String) (s : MState) (h : s.checkCount < 5) :
    checkStatusStep v s none = failRetryResult s := by
  simp [checkStatusStep, h, failRetryResult]

lemma checkStatusStep_none_ge (v : String) (s : MState) (h : ¬ s.checkCount < 5) :
    checkStatusStep v s none = failExhaustResult s := by
  simp [checkStatusStep, h, failExhaustResult, connFailMsg]

lemma checkStatusStep_completed (v : String) (s : MState) (d : StatusResponse)
    (h1 : d.success = true) (h2 : d.status = "completed") :
    checkStatusStep v s (some d) = completedResult v s := by
  simp [checkStatusStep, h1, h2, completedResult]

lemma checkStatusStep_failed (v : String) (s : MState) (d : StatusResponse)
    (h1 : d.success = true) (h2 : d.status = "failed") :
    checkStatusStep v s (some d) = failedResult s := by
  simp [checkStatusStep, h1, h2, failedResult]

lemma checkStatusStep_other (v : String) (s : MState) (d : StatusResponse)
    (h1 : d.success = true) (h2 : d.status ≠ "processing")
    (h3 : d.status ≠ "completed") (h4 : d.status ≠ "failed") :
    checkStatusStep v s (some d) = otherResult s := by
  simp [checkStatusStep, h1, h2, h3, h4, otherResult]

lemma checkStatusStep_appErr (v : String) (s : MState) (d : StatusResponse)
    (h1 : d.success = false) :
    checkStatusStep v s (some d) = appErrResult s d := by
  simp [checkStatusStep, h1, appErrResult]

lemma checkStatusStep_cases (v : String) (s : MState) (r : Option StatusResponse)
    (P : StepResult → Prop)
    (hfail_lt : s.checkCount < 5 → P (failRetryResult s))
    (hfail_ge : ¬ s.checkCount < 5 → P (failExhaustResult s))
    (hproc : ∀ d : StatusResponse, r = some d → d.success = true → d.status = "processing" →
      P (checkStatusStep v s (some d)))
    (hcompl : P (completedResult v s))
    (hfailed : P (failedResult s))
    (hother : P (otherResult s))
    (happ : ∀ d : StatusResponse, r = some d → d.success = false → P (appErrResult s d)) :
    P (checkStatusStep v s r) := by
  rcases r with _ | d
  · by_cases h : s.checkCount < 5
    · rw [checkStatusStep_none_lt v s h]; exact hfail_lt h
    · rw [checkStatusStep_none_ge v s h]; exact hfail_ge h
  · rcases hsuc : d.success with _ | _
    · rw [checkStatusStep_appErr v s d hsuc]; exact happ d rfl hsuc
    · by_cases hp : d.status = "processing"
      · exact hproc d rfl hsuc hp
      · by_cases hc : d.status = "completed"
        · rw [checkStatusStep_completed v s d hsuc hc]; exact hcompl
        · by_cases hf : d.status = "failed"
          · rw [checkStatusStep_failed v s d hsuc hf]; exact hfailed
          · rw [checkStatusStep_other v s d hsuc hp hc hf]; exact hother

lemma barWidth_bounds (v : String) (s : MState) (r : Option StatusResponse)
    (h5 : 5 ≤ s.barWidth) (h100 : s.barWidth ≤ 100) :
    5 ≤ (checkStatusStep v s r).state.barWidth
    ∧ (checkStatusStep v s r).state.barWidth ≤ 100 := by
  refine checkStatusStep_cases v s r
    (fun t => 5 ≤ t.state.barWidth ∧ t.state.barWidth ≤ 100)
    (fun _ => ⟨h5, h100⟩) (fun _ => ⟨h5, h100⟩) ?_
    (animateStep_bounds 1 h5 h100) ⟨h5, h100⟩ ⟨h5, h100⟩ (fun _ _ _ => ⟨h5, h100⟩)
  intro d _ hsuc hp
  rw [checkStatusStep_proc v s d hsuc hp]
  by_cases hg : d.progress.getD 0 > s.lastProgress ∨ (99 : ℚ)/100 ≤ d.progress.getD 0
  · simp only [hg, if_true]
    exact animateStep_bounds _ h5 h100
  · simp only [hg, if_false]
    exact ⟨h5, h100⟩

lemma schedulesNext_false_of_outcome (v : String) (s : MState) (r : Option StatusResponse)
    (h : (checkStatusStep v s r).outcome ≠ none) :
    (checkStatusStep v s r).schedulesNext = false := by
  revert h
  refine checkStatusStep_cases v s r
    (fun t => t.outcome ≠ none → t.schedulesNext = false)
    (fun _ h => absurd rfl h) (fun _ _ => rfl) ?_
    (fun _ => rfl) (fun _ => rfl) (fun h => absurd rfl h) (fun _ _ _ _ => rfl)
  intro d _ hsuc hp
  rw [checkStatusStep_proc v s d hsuc hp]
  intro h
  exact absurd rfl h

lemma runMonitor_length_le (v : String) :
    ∀ (rs : List (Option StatusResponse)) (s : MState), (runMonitor v s rs).length ≤ 1
  | [], _ => by simp [runMonitor]
  | r :: rs, s => by
    by_cases h : (checkStatusStep v s r).outcome = none
    · simp only [runMonitor, h, Option.toList_none, List.nil_append]
      split_ifs
      · exact runMonitor_length_le v rs _
      · simp
    · have hs := schedulesNext_false_of_outcome v s r h
      simp only [runMonitor, hs, if_false, List.append_nil]
      rcases hres : (checkStatusStep v s r).outcome with _ | o
      · exact absurd hres h
      · simp

end Lemmas

/-- A state whose shared counter has already counted five polls. -/
def busyState : MState :=
  { initState with checkCount := 5 }

section ClaimTheorems

attribute [local semireducible] Rat.mul Rat.add Rat.sub Rat.inv

/-- C1 counterexample: after a single successful `processing` poll the
shared counter is 1 (not reset to zero), and the terminal `Errored`
arrives already on the 5th consecutive transport failure that follows —
earlier than the claimed 6th — so neither "exactly the 6th" nor "a
successful poll resets the counter to zero" holds of the code. -/
theorem C1_counterexample :
    runMonitor "v" initState (some (procReport (1/5)) :: List.replicate 5 none)
      = [.errored connFailMsg]
    ∧ (checkStatusStep "v" initState (some (procReport (1/5)))).state.checkCount = 1 := by
  constructor <;> decide

/-- C1 (amended): on a monitor that has seen no successful poll, the
terminal `Errored` outcome is delivered on exactly the 6th consecutive
transport failure and never earlier; a successful `processing` poll does
not reset the shared counter to zero but increments it, shrinking the
remaining transport-failure budget. -/
theorem C1_theorem (v : String) (n : ℕ) (s : MState) (r : StatusResponse)
    (hn : n ≤ 5) (hr : r.success = true) (hst : r.status = "processing") :
    runMonitor v initState (List.replicate n none) = []
    ∧ runMonitor v initState (List.replicate 6 none) = [.errored connFailMsg]
    ∧ (checkStatusStep v s (some r)).state.checkCount = s.checkCount + 1 := by
  refine ⟨?_, rfl, ?_⟩
  · interval_cases n <;> rfl
  · rw [checkStatusStep_proc v s r hr hst]

/-- C1 witness: the amended statement at `n = 3` and a concrete
`processing` report. -/
theorem C1_witness :
    runMonitor "w" initState (List.replicate 3 none) = []
    ∧ runMonitor "w" initState (List.replicate 6 none) = [.errored connFailMsg]
    ∧ (checkStatusStep "w" initState (some (procReport (1/5)))).state.checkCount
        = initState.checkCount + 1 :=
  C1_theorem "w" 3 initState (procReport (1/5)) (by decide) (by decide) (by decide)

/-- C2: along any run of successful `processing` reports the pair
(checkCount, checkInterval) follows the schedule table exactly —
1000 ms for counts 1-10, 2000 ms for 11-30, 3000 ms from 31 on, switching
at the 10→11 and 30→31 boundaries — the table is non-decreasing, and each
`processing` step re-arms the poll with exactly the updated interval. -/
theorem C2_theorem (v : String) (rs : List StatusResponse) (s : MState)
    (r : StatusResponse) (n m : ℕ)
    (hall : ∀ x ∈ rs, x.success = true ∧ x.status = "processing")
    (hr : r.success = true) (hst : r.status = "processing") (hnm : n ≤ m) :
    (statesTrace v initState (rs.map some)).map (fun t => (t.checkCount, t.checkInterval))
      = (List.range rs.length).map (fun k => (k + 1, intervalTable (k + 1)))
    ∧ intervalTable n ≤ intervalTable m
    ∧ (checkStatusStep v s (some r)).nextDelay
        = some ((checkStatusStep v s (some r)).state.checkInterval)
    ∧ intervalTable 10 = 1000 ∧ intervalTable 11 = 2000
    ∧ intervalTable 30 = 2000 ∧ intervalTable 31 = 3000 := by
  refine ⟨?_, intervalTable_mono hnm, ?_, by decide, by decide, by decide, by decide⟩
  · have h := statesTrace_proc v rs initState hall (by decide)
    simpa [initState] using h
  · rw [checkStatusStep_proc v s r hr hst]

/-- C2 witness: the schedule statement at a concrete two-report run and
the boundary pair 10 ≤ 31. -/
theorem C2_witness :
    (statesTrace "w" initState (([procReport (1/5), procReport (2/5)] : List StatusResponse).map some)).map
        (fun t => (t.checkCount, t.checkInterval))
      = (List.range ([procReport (1/5), procReport (2/5)] : List StatusResponse).length).map
          (fun k => (k + 1, intervalTable (k + 1)))
    ∧ intervalTable 10 ≤ intervalTable 31
    ∧ (checkStatusStep "w" initState (some (procReport (1/5)))).nextDelay
        = some ((checkStatusStep "w" initState (some (procReport (1/5)))).state.checkInterval)
    ∧ intervalTable 10 = 1000 ∧ intervalTable 11 = 2000
    ∧ intervalTable 30 = 2000 ∧ intervalTable 31 = 3000 :=
  C2_theorem "w" [procReport (1/5), procReport (2/5)] initState (procReport (1/5)) 10 31
    (by decide) (by decide) (by decide) (by decide)

/-- C3 counterexample: the handler keeps no terminal flag, so invoking it
again after the terminal `completed` response has been processed delivers
a second outcome callback, and a late `processing` response even schedules
a fresh poll timer — the post-terminal invocation is not a no-op. -/
theorem C3_counterexample :
    (checkStatusStep "v" (checkStatusStep "v" initState (some completedReport)).state
        (some completedReport)).outcome = some (.completed "v")
    ∧ (checkStatusStep "v" (checkStatusStep "v" initState (some completedReport)).state
        (some (procReport (1/2)))).schedulesNext = true := by
  constructor <;> decide

/-- C3 (amended): within the monitor's own poll chain the terminal
outcome is delivered at most once — an invocation that produces an
outcome never arms another poll, so the chain stops — but nothing guards
a handler invocation arriving after the terminal state. -/
theorem C3_theorem (v : String) (s : MState) (r : Option StatusResponse)
    (rs : List (Option StatusResponse))
    (h : (checkStatusStep v s r).outcome ≠ none) :
    (checkStatusStep v s r).schedulesNext = false ∧ (runMonitor v s rs).length ≤ 1 :=
  ⟨schedulesNext_false_of_outcome v s r h, runMonitor_length_le v rs s⟩

/-- C3 witness: the amended statement at a concrete `completed` poll. -/
theorem C3_witness :
    (checkStatusStep "w" initState (some completedReport)).schedulesNext = false
    ∧ (runMonitor "w" initState [some completedReport]).length ≤ 1 :=
  C3_theorem "w" initState (some completedReport) [some completedReport] (by decide)

/-- C4 counterexample: on `{success:false, error:"quota exceeded"}` the
code surfaces `Errored{quota exceeded}` only after a fixed 1000 ms
`setTimeout`, not immediately as the claim's "no grace delay" asserts. -/
theorem C4_counterexample :
    (checkStatusStep "v" initState (some quotaReport)).outcome
        = some (.errored "quota exceeded")
    ∧ (checkStatusStep "v" initState (some quotaReport)).outcomeDelay = some 1000
    ∧ (checkStatusStep "v" initState (some quotaReport)).outcomeDelay ≠ some 0 := by
  refine ⟨?_, ?_, ?_⟩ <;> decide

/-- C4 (amended): every well-formed `success:false` response is terminal
with zero retries and no further polling, carrying the response's error
message (or the generic fallback when absent) — but the report is put on
a fixed 1000 ms timer rather than delivered with no delay. -/
theorem C4_theorem (v : String) (s : MState) (r : StatusResponse)
    (hr : r.success = false) :
    (checkStatusStep v s (some r)).outcome
        = some (.errored (r.error.getD "无法获取任务状态"))
    ∧ (checkStatusStep v s (some r)).outcomeDelay = some 1000
    ∧ (checkStatusStep v s (some r)).schedulesNext = false
    ∧ (checkStatusStep v s (some r)).state = s := by
  rw [checkStatusStep_appErr v s r hr]
  exact ⟨rfl, rfl, rfl, rfl⟩

/-- C4 witness: the amended statement at the quota-exceeded response. -/
theorem C4_witness :
    (checkStatusStep "w" initState (some quotaReport)).outcome
        = some (.errored (quotaReport.error.getD "无法获取任务状态"))
    ∧ (checkStatusStep "w" initState (some quotaReport)).outcomeDelay = some 1000
    ∧ (checkStatusStep "w" initState (some quotaReport)).schedulesNext = false
    ∧ (checkStatusStep "w" initState (some quotaReport)).state = initState :=
  C4_theorem "w" initState quotaReport (by decide)

/-- C5 counterexample: five consecutive transport failures from a fresh
monitor deliver no outcome at all — the fifth failure still re-arms, so a
sixth status request is attempted, contrary to the claim. -/
theorem C5_counterexample :
    runMonitor "v" initState (List.replicate 5 none) = []
    ∧ (checkStatusStep "v" (iterFail "v" 4) none).schedulesNext = true := by
  constructor <;> decide

/-- C5 (amended): five consecutive transport failures from a fresh
monitor all retry (the fifth still re-arms a sixth request after
3000 ms); the terminal `Errored` is delivered only on the sixth
consecutive failure. -/
theorem C5_theorem (v : String) :
    runMonitor v initState (List.replicate 5 none) = []
    ∧ (checkStatusStep v (iterFail v 4) none).schedulesNext = true
    ∧ (checkStatusStep v (iterFail v 4) none).nextDelay = some 3000
    ∧ runMonitor v initState (List.replicate 6 none) = [.errored connFailMsg] :=
  ⟨rfl, rfl, rfl, rfl⟩

/-- C6 counterexample: at current width 5 and reported progress 0.055
(target width 5.5) the snap condition fails, yet after the interpolation
step the handler does not re-schedule a frame and the width rests at
5.05, short of the target — the else branch does not always re-arm. -/
theorem C6_counterexample :
    ¬ (mabs (clampWidth (11/200) - 5) < 1/2)
    ∧ (animateStep 5 (11/200)).2 = false
    ∧ (animateStep 5 (11/200)).1 ≠ clampWidth (11/200) := by
  refine ⟨?_, ?_, ?_⟩ <;> decide

/-- C6 (amended): when `|target - current| < 0.5` the step snaps the
width to the target and never re-schedules; otherwise it writes
`current + (target - current) * 0.1` and re-schedules a frame if and only
if the written width is still more than 0.5 away from the target. -/
theorem C6_theorem (c p : ℚ) :
    (mabs (clampWidth p - c) < 1/2 → animateStep c p = (clampWidth p, false))
    ∧ (¬ (mabs (clampWidth p - c) < 1/2) →
        (animateStep c p).1 = c + (clampWidth p - c) * (1/10)
        ∧ ((animateStep c p).2 = true
            ↔ 1/2 < mabs ((animateStep c p).1 - clampWidth p))) := by
  constructor
  · intro h
    simp only [animateStep]
    rw [if_pos h]
  · intro h
    simp only [animateStep, if_neg h]
    constructor <;> simp

/-- C6 witness: the amended statement with the snap branch at target 0
and the interpolation branch at target 1. -/
theorem C6_witness :
    animateStep 5 0 = (clampWidth 0, false)
    ∧ ((animateStep 5 1).1 = 5 + (clampWidth 1 - 5) * (1/10)
        ∧ ((animateStep 5 1).2 = true
            ↔ 1/2 < mabs ((animateStep 5 1).1 - clampWidth 1))) :=
  ⟨(C6_theorem 5 0).1 (by decide), (C6_theorem 5 1).2 (by decide)⟩

/-- C7: every width the animator writes stays within [5, 100]: one step
preserves the bounds, any run of steps from the 5% floor stays within
them, and a full poll-handler invocation preserves them for the stored
bar width. -/
theorem C7_theorem (c p : ℚ) (ps : List ℚ) (v : String) (s : MState)
    (r : Option StatusResponse)
    (hc5 : 5 ≤ c) (hc100 : c ≤ 100) (hb5 : 5 ≤ s.barWidth) (hb100 : s.barWidth ≤ 100) :
    (5 ≤ (animateStep c p).1 ∧ (animateStep c p).1 ≤ 100)
    ∧ (5 ≤ foldWidth ps ∧ foldWidth ps ≤ 100)
    ∧ (5 ≤ (checkStatusStep v s r).state.barWidth
        ∧ (checkStatusStep v s r).state.barWidth ≤ 100) :=
  ⟨animateStep_bounds p hc5 hc100, foldWidth_bounds ps, barWidth_bounds v s r hb5 hb100⟩

/-- C7 witness: the bounds at width 5, target 1, a two-target run, and a
transport-failure handler invocation from the initial state. -/
theorem C7_witness :
    (5 ≤ (animateStep 5 1).1 ∧ (animateStep 5 1).1 ≤ 100)
    ∧ (5 ≤ foldWidth [1/2, 1/4] ∧ foldWidth [1/2, 1/4] ≤ 100)
    ∧ (5 ≤ (checkStatusStep "w" initState none).state.barWidth
        ∧ (checkStatusStep "w" initState none).state.barWidth ≤ 100) :=
  C7_theorem 5 1 [1/2, 1/4] "w" initState none (by decide) (by decide) (by decide) (by decide)

/-- C8: the animator's effective target `clampWidth lastProgress` changes
only to `clampWidth p`, and only when that is strictly greater than the
previous target or the reported fraction is at least 0.99; a lower target
without the override leaves both the stored progress and the target
unchanged, and the poll handler's `processing` branch realises exactly
this guarded update. -/
theorem C8_theorem (last p : ℚ) (v : String) (s : MState) (r : StatusResponse)
    (hr : r.success = true) (hst : r.status = "processing") :
    (clampWidth (setTargetStep last p) ≠ clampWidth last →
        clampWidth (setTargetStep last p) = clampWidth p
        ∧ (clampWidth last < clampWidth p ∨ 99/100 ≤ p))
    ∧ (clampWidth p < clampWidth last → p < 99/100 → setTargetStep last p = last)
    ∧ (checkStatusStep v s (some r)).state.lastProgress
        = setTargetStep s.lastProgress (r.progress.getD 0) := by
  refine ⟨?_, ?_, ?_⟩
  · intro hne
    unfold setTargetStep at hne ⊢
    by_cases hg : p > last ∨ p ≥ 99/100
    · rw [if_pos hg] at hne ⊢
      refine ⟨rfl, ?_⟩
      rcases hg with hg | hg
      · exact Or.inl (lt_of_le_of_ne (clampWidth_mono hg.le) (Ne.symm hne))
      · exact Or.inr hg
    · rw [if_neg hg] at hne
      exact absurd rfl hne
  · intro hlt hp99
    have hng : ¬ (p > last ∨ p ≥ 99/100) := by
      rintro (hg | hg)
      · exact absurd (clampWidth_mono hg.le) (not_le.mpr hlt)
      · exact absurd hg (not_le.mpr hp99)
    simp [setTargetStep, hng]
  · rw [checkStatusStep_proc v s r hr hst]

/-- C8 witness: the guarded-update statement at previous progress 0, new
progress 1/2, and a concrete `processing` report. -/
theorem C8_witness :
    (clampWidth (setTargetStep 0 (1/2)) ≠ clampWidth 0 →
        clampWidth (setTargetStep 0 (1/2)) = clampWidth (1/2)
        ∧ (clampWidth 0 < clampWidth (1/2) ∨ 99/100 ≤ (1/2 : ℚ)))
    ∧ (clampWidth (1/2) < clampWidth 0 → (1/2 : ℚ) < 99/100 → setTargetStep 0 (1/2) = 0)
    ∧ (checkStatusStep "w" initState (some (procReport (1/2)))).state.lastProgress
        = setTargetStep initState.lastProgress ((procReport (1/2)).progress.getD 0) :=
  C8_theorem 0 (1/2) "w" initState (procReport (1/2)) (by decide) (by decide)

/-- C9: the retry budget and the poll counter are one shared variable —
a successful `processing` report increments the very counter the retry
limit checks, nothing ever resets it (every handler invocation leaves it
≥ its old value), and once it has counted 5 or more polls the next
transport failure is terminal, delivering `Errored` with no retry
scheduled and the state untouched. -/
theorem C9_theorem (v : String) (s : MState) (r : StatusResponse)
    (x : Option StatusResponse)
    (hr : r.success = true) (hst : r.status = "processing") (h5 : 5 ≤ s.checkCount) :
    (checkStatusStep v s (some r)).state.checkCount = s.checkCount + 1
    ∧ s.checkCount ≤ (checkStatusStep v s x).state.checkCount
    ∧ (checkStatusStep v s none).outcome = some (.errored connFailMsg)
    ∧ (checkStatusStep v s none).schedulesNext = false
    ∧ (checkStatusStep v s none).state = s := by
  have hge : ¬ s.checkCount < 5 := not_lt.mpr h5
  refine ⟨?_, ?_, ?_, ?_, ?_⟩
  · rw [checkStatusStep_proc v s r hr hst]
  · refine checkStatusStep_cases v s x (fun t => s.checkCount ≤ t.state.checkCount)
      (fun _ => Nat.le_succ _) (fun _ => le_rfl) ?_ le_rfl le_rfl le_rfl
      (fun _ _ _ => le_rfl)
    intro d _ hsuc hp
    rw [checkStatusStep_proc v s d hsuc hp]
    exact Nat.le_succ _
  · rw [checkStatusStep_none_ge v s hge]; rfl
  · rw [checkStatusStep_none_ge v s hge]; rfl
  · rw [checkStatusStep_none_ge v s hge]; rfl

/-- C9 witness: the shared-counter statement at a state that has counted
five polls. -/
theorem C9_witness :
    (checkStatusStep "w" busyState (some (procReport (1/2)))).state.checkCount
        = busyState.checkCount + 1
    ∧ busyState.checkCount ≤ (checkStatusStep "w" busyState none).state.checkCount
    ∧ (checkStatusStep "w" busyState none).outcome = some (.errored connFailMsg)
    ∧ (checkStatusStep "w" busyState none).schedulesNext = false
    ∧ (checkStatusStep "w" busyState none).state = busyState :=
  C9_theorem "w" busyState (procReport (1/2)) none (by decide) (by decide) (by decide)

/-- C10: a successful response whose status is none of "processing",
"completed", "failed" makes the handler do nothing: the state is
unchanged, no next poll is armed, and no outcome is delivered — the
monitor silently stops polling. -/
theorem C10_theorem (v : String) (s : MState) (r : StatusResponse)
    (hr : r.success = true) (h1 : r.status ≠ "processing")
    (h2 : r.status ≠ "completed") (h3 : r.status ≠ "failed") :
    checkStatusStep v s (some r) = otherResult s
    ∧ (otherResult s).state = s
    ∧ (otherResult s).schedulesNext = false
    ∧ (otherResult s).outcome = none
    ∧ (otherResult s).nextDelay = none
    ∧ (otherResult s).outcomeDelay = none :=
  ⟨checkStatusStep_other v s r hr h1 h2 h3, rfl, rfl, rfl, rfl, rfl⟩

/-- C10 witness: the silent-stop statement at a `status:"queued"`
response. -/
theorem C10_witness :
    checkStatusStep "w" initState (some queuedReport) = otherResult initState
    ∧ (otherResult initState).state = initState
    ∧ (otherResult initState).schedulesNext = false
    ∧ (otherResult initState).outcome = none
    ∧ (otherResult initState).nextDelay = none
    ∧ (otherResult initState).outcomeDelay = none :=
  C10_theorem "w" initState queuedReport (by decide) (by decide) (by decide) (by decide)

end ClaimTheorems

end Bili2Text
